import Mathlib

/-!
Verification development for `albumentations/augmentations/dropout/mask_dropout.py`
(classes `MaskDropout` and `MaskDropoutV2`).

The Python source is shallowly embedded:
* 2-D rasters become `Grid := List (List Int)`; images become `List (List (List Int))`
  (rows × cols × channels); boolean dropout masks become `List (List Bool)`.
* The global `random` module generator becomes an explicit `RandState` threaded
  through the functions; `random.randint` and `random.sample` are modelled from
  their documented stdlib contracts (range membership, sampling without
  replacement, `ValueError` on empty range / oversized sample).
* `skimage.measure.label` is modelled as an executable connected-component
  labeling with 8-connectivity (skimage's default for 2-D) where two pixels
  are connected when adjacent and of equal nonzero value, labels `1..N`.
* `cv2.boundingRect` and `cv2.inpaint` are modelled from the OpenCV
  documentation (bounding rectangle of the nonzero region; inpainting accepts
  1- and 3-channel images and errors otherwise; the numerical content produced
  by the Navier-Stokes inpainting algorithm itself is not modelled and no
  theorem below depends on it).
* Python exceptions become `Option`/`Except` results.
-/

/-- A dynamic Python value, needed because `MaskDropoutV2.__init__` passes
booleans and floats positionally into parameters holding tuples and fill
values. -/
inductive PyVal where
  | int (n : Int)
  | rat (q : ℚ)
  | str (s : String)
  | bool (b : Bool)
  | pair (a b : PyVal)
  deriving DecidableEq, Repr

/-- Python runtime exceptions relevant to the embedded code. -/
inductive PyErr where
  | valueError
  | typeError
  | cv2Error
  deriving DecidableEq, Repr

/-- State of the `random` module's global generator.  The concrete generator
below is a linear congruential stand-in for the Mersenne Twister: the claims
only use that the generator is a deterministic function of its state and that
derived draws land in the requested ranges. -/
structure RandState where
  seed : Nat
  deriving DecidableEq, Repr

/-- One raw draw of the pseudo-random generator. -/
def randStep (s : RandState) : Nat × RandState :=
  let x := (s.seed * 1103515245 + 12345) % 4294967296
  (x, ⟨x⟩)

/-- Model of Python `random.randint(a, b)`: a uniform integer in `[a, b]`;
raises `ValueError` (here `none`) when the range is empty (`a > b`). -/
def randint (a b : Int) (s : RandState) : Option (Int × RandState) :=
  if a ≤ b then
    let (x, s') := randStep s
    some (a + (x : Int) % (b - a + 1), s')
  else none

/-- Recursion core of the `random.sample` model: draw `k` elements without
replacement by repeatedly removing a generator-chosen index from the pool. -/
def sampleAux : List Nat → Nat → RandState → List Nat × RandState
  | _, 0, s => ([], s)
  | pool, k + 1, s =>
    let (x, s1) := randStep s
    let i := x % pool.length
    let rest := sampleAux (pool.eraseIdx i) k s1
    (pool.getD i 0 :: rest.1, rest.2)

/-- Model of Python `random.sample(population, k)`: `k` distinct elements of
the population chosen without replacement; raises `ValueError` (here `none`)
when `k` is negative or exceeds the population size. -/
def sample (pool : List Nat) (k : Int) (s : RandState) :
    Option (List Nat × RandState) :=
  if 0 ≤ k ∧ k ≤ (pool.length : Int) then some (sampleAux pool k.toNat s)
  else none

/-- Python `int(x)` on a real number: truncation toward zero. -/
def pyInt (q : ℚ) : Int := if 0 ≤ q then ⌊q⌋ else ⌈q⌉

theorem randint_mem_range {a b r : Int} {s s' : RandState}
    (h : randint a b s = some (r, s')) : a ≤ r ∧ r ≤ b := by
  unfold randint at h
  by_cases hab : a ≤ b
  · simp only [hab, if_true] at h
    obtain ⟨hr, _⟩ := Prod.mk.injEq .. ▸ (Option.some.inj h)
    have hpos : (0 : Int) < b - a + 1 := by omega
    have h0 : 0 ≤ ((randStep s).1 : Int) % (b - a + 1) :=
      Int.emod_nonneg _ (by omega)
    have h1 : ((randStep s).1 : Int) % (b - a + 1) < b - a + 1 :=
      Int.emod_lt_of_pos _ hpos
    omega
  · simp [hab] at h

theorem randint_isSome_of_le {a b : Int} (s : RandState) (hab : a ≤ b) :
    (randint a b s).isSome := by
  simp [randint, hab]

theorem sampleAux_spec (k : Nat) :
    ∀ (pool : List Nat) (s : RandState), pool.Nodup → k ≤ pool.length →
      (sampleAux pool k s).1.length = k ∧ (sampleAux pool k s).1.Nodup ∧
        ∀ x ∈ (sampleAux pool k s).1, x ∈ pool := by
  induction k with
  | zero => intro pool s _ _; simp [sampleAux]
  | succ k ih =>
    intro pool s hnd hk
    have hlen : 0 < pool.length := by omega
    set i := (randStep s).1 % pool.length with hidef
    have hi : i < pool.length := Nat.mod_lt _ hlen
    have hgetD : pool.getD i 0 = pool[i] := List.getD_eq_getElem pool 0 hi
    have herase : pool.erase pool[i] = pool.eraseIdx i := hnd.erase_getElem _ hi
    have hnd' : (pool.eraseIdx i).Nodup := herase ▸ hnd.erase _
    have hlen' : (pool.eraseIdx i).length = pool.length - 1 := by
      rw [List.length_eraseIdx]; simp [hi]
    have hk' : k ≤ (pool.eraseIdx i).length := by omega
    obtain ⟨ihlen, ihnd, ihmem⟩ := ih (pool.eraseIdx i) (randStep s).2 hnd' hk'
    refine ⟨?_, ?_, ?_⟩
    · simp only [sampleAux, List.length_cons]
      rw [← hidef] at *
      omega
    · simp only [sampleAux]
      rw [← hidef]
      refine List.Nodup.cons ?_ ihnd
      intro hmem
      have : pool.getD i 0 ∈ pool.eraseIdx i := ihmem _ hmem
      rw [hgetD, ← herase] at this
      exact hnd.not_mem_erase this
    · intro x hx
      simp only [sampleAux, List.mem_cons] at hx
      rw [← hidef] at hx
      rcases hx with h | h
      · rw [h, hgetD]; exact List.getElem_mem hi
      · exact (List.eraseIdx_sublist pool i).subset (ihmem _ h)

/-- Contract of the `random.sample` model: under a nodup pool, success happens
exactly for `0 ≤ k ≤ |pool|` and the result is `k` distinct pool elements. -/
theorem sample_spec {pool : List Nat} {k : Int} {s : RandState}
    {ids : List Nat} {s' : RandState} (hnd : pool.Nodup)
    (h : sample pool k s = some (ids, s')) :
    0 ≤ k ∧ k ≤ (pool.length : Int) ∧ (ids.length : Int) = k ∧ ids.Nodup ∧
      ∀ x ∈ ids, x ∈ pool := by
  unfold sample at h
  by_cases hcond : 0 ≤ k ∧ k ≤ (pool.length : Int)
  · simp only [hcond, and_self, if_true] at h
    have hk : k.toNat ≤ pool.length := by omega
    obtain ⟨h1, h2, h3⟩ := sampleAux_spec k.toNat pool s hnd hk
    obtain ⟨hids, _⟩ := Prod.mk.injEq .. ▸ (Option.some.inj h)
    subst hids
    exact ⟨hcond.1, hcond.2, by omega, h2, h3⟩
  · simp [hcond] at h

theorem sample_isSome {pool : List Nat} {k : Int} (s : RandState)
    (h0 : 0 ≤ k) (h1 : k ≤ (pool.length : Int)) : (sample pool k s).isSome := by
  simp [sample, h0, h1]

/-- A 2-D integer raster (the instance/segmentation mask), row major.
Background is `0`, foreground is nonzero. -/
abbrev Grid := List (List Int)

/-- An image: rows × cols × channels of integer samples. -/
abbrev Image := List (List (List Int))

/-- A boolean raster (the dropout mask). -/
abbrev BMask := List (List Bool)

/-- Pixel positions, `(row, col)`. -/
abbrev Pos := Nat × Nat

/-- Raster access with numpy-out-of-range positions reading as background. -/
def gridGet (g : Grid) (p : Pos) : Int := (g.getD p.1 []).getD p.2 0

def gridH (g : Grid) : Nat := g.length

def gridW (g : Grid) : Nat := (g.getD 0 []).length

/-- All positions of a `gridH g × gridW g` raster, row major. -/
def allPositions (g : Grid) : List Pos :=
  (List.range (gridH g)).flatMap fun i => (List.range (gridW g)).map fun j => (i, j)

/-- The eight neighbour offsets of skimage's default 2-D connectivity. -/
def nbOffsets : List (Int × Int) :=
  [(-1, -1), (-1, 0), (-1, 1), (0, -1), (0, 1), (1, -1), (1, 0), (1, 1)]

/-- In-quadrant 8-neighbours of a position (upper bounds are enforced by
`gridGet` reading out-of-range pixels as background). -/
def neighbors (p : Pos) : List Pos :=
  nbOffsets.filterMap fun d =>
    let a := (p.1 : Int) + d.1
    let b := (p.2 : Int) + d.2
    if 0 ≤ a ∧ 0 ≤ b then some (a.toNat, b.toNat) else none

/-- Depth-first flood fill collecting the connected component of value `v`
reachable from the stack, fuel-bounded for structural termination. -/
def flood (g : Grid) (v : Int) : Nat → List Pos → List Pos → List Pos
  | 0, _, seen => seen
  | _ + 1, [], seen => seen
  | fuel + 1, p :: rest, seen =>
    if p ∈ seen ∨ gridGet g p ≠ v then flood g v fuel rest seen
    else flood g v fuel (neighbors p ++ rest) (p :: seen)

/-- Fuel sufficient for `flood` on grid `g`: every pop either drops a pixel or
marks one of the at most `H*W` foreground pixels seen, each pushing ≤ 8. -/
def floodFuel (g : Grid) : Nat := 9 * (gridH g * gridW g) + 9

/-- Model of `skimage.measure.label(mask)` (2-D, default 8-connectivity,
background `0`): the component list in row-major discovery order.  Two pixels
belong to one component when they are connected through adjacent pixels of
equal nonzero value. -/
def labelComponents (g : Grid) : List (List Pos) :=
  (allPositions g).foldl
    (fun comps p =>
      if gridGet g p = 0 ∨ comps.any (fun c => p ∈ c) then comps
      else comps ++ [flood g (gridGet g p) (floodFuel g) [p] []])
    []

/-- Component count `num_labels` of `skimage.measure.label(mask, return_num=True)`. -/
def numLabels (g : Grid) : Nat := (labelComponents g).length

/-- Label image `label_image[p]` of `skimage.measure.label`: the 1-based index of the
component containing `p`, `0` on background. -/
def labelAt (g : Grid) (p : Pos) : Nat :=
  match (labelComponents g).findIdx? (fun c => p ∈ c) with
  | some i => i + 1
  | none => 0

/-- The numpy expression `mask > 0` as a boolean raster. -/
def nonzeroMask (g : Grid) : BMask := g.map (List.map (fun v => decide (0 < v)))

/-- The loop `for label_index in labels_index: dropout_mask |= label_image ==
label_index`, starting from `np.zeros(mask.shape[:2], dtype=bool)`: true where
the label image holds one of the selected ids. -/
def buildDropoutMask (g : Grid) (ids : List Nat) : BMask :=
  (List.range (gridH g)).map fun i =>
    (List.range (gridW g)).map fun j => decide (labelAt g (i, j) ∈ ids)

/-- Dropout-mask access, out-of-range reading as false. -/
def bmaskGet (m : BMask) (p : Pos) : Bool := (m.getD p.1 []).getD p.2 false

/-- Conversion `dropout_mask.astype(np.uint8)`. -/
def bmaskToU8 (m : BMask) : Grid := m.map (List.map (fun b => if b then 1 else 0))

/-- Model of `cv2.boundingRect` on a non-negative raster, from the OpenCV
documentation: the minimal up-right rectangle `(x, y, w, h)` containing the
nonzero pixels (`x` the column, `y` the row of the top-left corner), and
`(0, 0, 0, 0)` when no pixel is nonzero. -/
def boundingRect (g : Grid) : Nat × Nat × Nat × Nat :=
  match (allPositions g).filter (fun p => decide (gridGet g p ≠ 0)) with
  | [] => (0, 0, 0, 0)
  | q :: qs =>
    let minR := (qs.map Prod.fst).foldl min q.1
    let maxR := (qs.map Prod.fst).foldl max q.1
    let minC := (qs.map Prod.snd).foldl min q.2
    let maxC := (qs.map Prod.snd).foldl max q.2
    (minC, minR, maxC - minC + 1, maxR - minR + 1)

/-- Channel count of an image (a plain `(H, W)` gray image is embedded with
singleton pixel lists, i.e. one channel). -/
def imageChannels (img : Image) : Nat := ((img.getD 0 []).getD 0 []).length

/-- Placeholder for the pixel content produced by OpenCV's Navier-Stokes
inpainting; the algorithm's numerical output is outside this development and
no theorem depends on this value, only on when `cv2Inpaint` succeeds and on
the radius argument it receives. -/
def inpaintResult (img : Image) (_mask8 : Grid) (_radius : Nat) : Image := img

/-- Model of `cv2.inpaint(img, mask, radius, flags)` support checking, from
the OpenCV documentation: 1-channel and 3-channel inputs are supported, any
other channel count raises `cv2.error`. -/
def cv2Inpaint (img : Image) (mask8 : Grid) (radius : Nat) : Except PyErr Image :=
  if imageChannels img = 1 ∨ imageChannels img = 3 then
    .ok (inpaintResult img mask8 radius)
  else .error .cv2Error

/-- Assignment `img.copy()` followed by `img[dropout_mask] = value` on an `(H, W[, C])`
image: at true positions of the dropout mask every channel sample is replaced
by the scalar fill value (numpy broadcast); all other pixels are kept. -/
def constFillImage (img : Image) (dm : BMask) (v : Int) : Image :=
  (List.range img.length).map fun i =>
    (List.range ((img.getD i []).length)).map fun j =>
      if bmaskGet dm (i, j) then ((img.getD i []).getD j []).map (fun _ => v)
      else (img.getD i []).getD j []

/-- Assignment `img.copy()` followed by `img[dropout_mask] = value` on a 2-D raster. -/
def constFillGrid (g : Grid) (dm : BMask) (v : Int) : Grid :=
  (List.range g.length).map fun i =>
    (List.range ((g.getD i []).length)).map fun j =>
      if bmaskGet dm (i, j) then v else (g.getD i []).getD j 0

/-- The configured transform state shared by `MaskDropout` and its subclass
`MaskDropoutV2` (the latter adds no field, it only overwrites).  The
`always_apply`/`p` fields model the storage done by `DualTransform.__init__`
(`core/transforms_interface`, not in src), modelled from the spec:
configuration holds an activation probability and an always-apply flag. -/
structure MaskDropoutT where
  always_apply : Bool
  p : ℚ
  max_objects : PyVal
  image_fill_value : PyVal
  mask_fill_value : Int
  deriving DecidableEq, Repr

/-- Modelled from the spec: `to_tuple` of `core/transforms_interface` (not in
src).  Per the configuration contract, `max_objects` is "an integer, or a
`(min, max)` count pair"; a scalar becomes the upper bound paired with the
given lower bound, a pair is kept as is.  It performs no bounds validation. -/
def to_tuple (v : PyVal) (low : Int) : PyVal :=
  match v with
  | PyVal.pair a b => PyVal.pair a b
  | PyVal.int n => PyVal.pair (PyVal.int low) (PyVal.int n)
  | PyVal.bool b => PyVal.pair (PyVal.int low) (PyVal.int (if b then 1 else 0))
  | x => x

/-- Constructor `MaskDropout.__init__(max_objects=1, image_fill_value=0, mask_fill_value=0,
always_apply=False, p=0.5)`: stores `to_tuple(max_objects, 1)` and the fill
values; the base class stores `always_apply` and `p`.  No validation happens
and no exception can be raised; the `Except` result only makes
configuration-time errors statable. -/
def MaskDropout.init (max_objects image_fill_value : PyVal) (mask_fill_value : Int)
    (always_apply : Bool) (p : ℚ) : Except PyErr MaskDropoutT :=
  .ok { always_apply := always_apply, p := p,
        max_objects := to_tuple max_objects 1,
        image_fill_value := image_fill_value,
        mask_fill_value := mask_fill_value }

/-- Constructor `MaskDropoutV2.__init__`: the source calls `super().__init__(always_apply,
p)`, which lands the caller's `always_apply` in `MaskDropout`'s `max_objects`
parameter and the caller's `p` in its `image_fill_value` parameter, with
`MaskDropout`'s own defaults `mask_fill_value=0`, `always_apply=False`,
`p=0.5` filling the remaining parameters; afterwards the three count/fill
fields are overwritten with the caller's values. -/
def MaskDropoutV2.init (max_objects image_fill_value : PyVal) (mask_fill_value : Int)
    (always_apply : Bool) (p : ℚ) : Except PyErr MaskDropoutT :=
  match MaskDropout.init (PyVal.bool always_apply) (PyVal.rat p) 0 false (1 / 2) with
  | .error e => .error e
  | .ok t => .ok { t with max_objects := max_objects,
                          image_fill_value := image_fill_value,
                          mask_fill_value := mask_fill_value }

/-- Reading a stored `max_objects` as the integer pair `randint` needs
(`None` models the `TypeError` of an ill-typed configuration). -/
def asIntPair : PyVal → Option (Int × Int)
  | PyVal.pair (PyVal.int a) (PyVal.int b) => some (a, b)
  | _ => none

/-- A Python number as a rational. -/
def ratOf : PyVal → Option ℚ
  | PyVal.int n => some (n : ℚ)
  | PyVal.rat q => some q
  | _ => none

/-- Reading a stored `max_objects` as the fraction pair `MaskDropoutV2` needs. -/
def asRatPair : PyVal → Option (ℚ × ℚ)
  | PyVal.pair a b =>
    match ratOf a, ratOf b with
    | some x, some y => some (x, y)
    | _, _ => none
  | _ => none

/-- A numeric image fill value (the `"inpaint"` directive is handled before
this decode in `apply`). -/
def asIntFill : PyVal → Option Int
  | PyVal.int n => some n
  | PyVal.bool b => some (if b then 1 else 0)
  | _ => none

/-- Method `MaskDropout.get_params_dependent_on_targets`: label the mask; on zero
components the dropout mask is `None`; otherwise draw
`randint(max_objects[0], max_objects[1])`, clip by the component count, select
every label via `mask > 0` when the clipped count equals it, and otherwise
sample that many distinct ids and build the dropout mask from the label
image.  The outer `Option` is a raised Python exception. -/
def MaskDropout.get_params_dependent_on_targets (t : MaskDropoutT) (mask : Grid) (s : RandState) :
    Option (Option BMask × RandState) :=
  let num_labels := numLabels mask
  if num_labels = 0 then some (none, s)
  else
    match asIntPair t.max_objects with
    | none => none
    | some (lo, hi) =>
      match randint lo hi s with
      | none => none
      | some (r, s1) =>
        let objects_to_drop : Int := min (num_labels : Int) r
        if objects_to_drop = (num_labels : Int) then
          some (some (nonzeroMask mask), s1)
        else
          match sample (List.range' 1 num_labels) objects_to_drop s1 with
          | none => none
          | some (ids, s2) => some (some (buildDropoutMask mask ids), s2)

/-- Method `MaskDropoutV2.get_params_dependent_on_targets`: like `MaskDropout`'s but
the count is `randint(int(num_labels * max_objects[0]), int(num_labels *
max_objects[1]))`, with no clipping and no all-labels short-circuit before
`random.sample`. -/
def MaskDropoutV2.get_params_dependent_on_targets (t : MaskDropoutT) (mask : Grid) (s : RandState) :
    Option (Option BMask × RandState) :=
  let num_labels := numLabels mask
  if num_labels = 0 then some (none, s)
  else
    match asRatPair t.max_objects with
    | none => none
    | some (fmin, fmax) =>
      match randint (pyInt ((num_labels : ℚ) * fmin)) (pyInt ((num_labels : ℚ) * fmax)) s with
      | none => none
      | some (k, s1) =>
        match sample (List.range' 1 num_labels) k s1 with
        | none => none
        | some (ids, s2) => some (some (buildDropoutMask mask ids), s2)

/-- Method `MaskDropout.apply`: identity on `None`; the `"inpaint"` fill converts the
dropout mask to `uint8`, takes `cv2.boundingRect`'s `w, h`, computes `radius =
min(3, max(w, h) // 2)` and calls `cv2.inpaint`; any other fill constant-fills
a copy. -/
def MaskDropout.apply (t : MaskDropoutT) (img : Image)
    (dropout_mask : Option BMask) : Except PyErr Image :=
  match dropout_mask with
  | none => .ok img
  | some dm =>
    if t.image_fill_value = PyVal.str "inpaint" then
      let mask8 := bmaskToU8 dm
      let rect := boundingRect mask8
      let radius := min 3 (max rect.2.2.1 rect.2.2.2 / 2)
      cv2Inpaint img mask8 radius
    else
      match asIntFill t.image_fill_value with
      | some v => .ok (constFillImage img dm v)
      | none => .error .typeError

/-- Method `MaskDropout.apply_to_mask`: identity on `None`, else constant-fill a copy
with `mask_fill_value`. -/
def MaskDropout.apply_to_mask (t : MaskDropoutT) (img : Grid)
    (dropout_mask : Option BMask) : Grid :=
  match dropout_mask with
  | none => img
  | some dm => constFillGrid img dm t.mask_fill_value

/-- Method `MaskDropoutV2.apply` is a verbatim copy of `MaskDropout.apply` in the
source. -/
def MaskDropoutV2.apply (t : MaskDropoutT) (img : Image)
    (dropout_mask : Option BMask) : Except PyErr Image :=
  MaskDropout.apply t img dropout_mask

/-- Method `MaskDropoutV2.apply_to_mask` is a verbatim copy of
`MaskDropout.apply_to_mask` in the source. -/
def MaskDropoutV2.apply_to_mask (t : MaskDropoutT) (img : Grid)
    (dropout_mask : Option BMask) : Grid :=
  MaskDropout.apply_to_mask t img dropout_mask

/-- Image pixel access: the channel vector at a position, `[]` out of range. -/
def pixelGet (img : Image) (p : Pos) : List Int := (img.getD p.1 []).getD p.2 []

theorem getD_range_map {β : Type} (n : Nat) (f : Nat → β) (d : β) (i : Nat) :
    ((List.range n).map f).getD i d = if i < n then f i else d := by
  rw [List.getD_eq_getElem?_getD, List.getElem?_map]
  by_cases h : i < n
  · simp [List.getElem?_range, h]
  · simp [List.getElem?_eq_none, h, Nat.le_of_not_lt]

/-- Pointwise behaviour of the image constant fill: pixels inside the image
whose dropout-mask entry is true get every channel set to the fill value, all
other positions read as in the input. -/
theorem constFillImage_pointwise (img : Image) (dm : BMask) (v : Int) (p : Pos) :
    pixelGet (constFillImage img dm v) p =
      if p.1 < img.length ∧ p.2 < (img.getD p.1 []).length ∧ bmaskGet dm p then
        (pixelGet img p).map (fun _ => v)
      else pixelGet img p := by
  obtain ⟨i, j⟩ := p
  unfold constFillImage pixelGet
  rw [getD_range_map]
  by_cases hi : i < img.length
  · simp only [hi, if_true, true_and]
    rw [getD_range_map]
    by_cases hj : j < (img.getD i []).length
    · simp only [hj, if_true, true_and]
    · simp only [hj, if_false, false_and, if_false]
      rw [List.getD_eq_getElem?_getD ((img.getD i [] : List (List Int))) j,
        List.getElem?_eq_none (by omega)]
      simp
  · simp only [hi, if_false, false_and, if_false]
    have himg : img.getD i ([] : List (List Int)) = [] := by
      rw [List.getD_eq_getElem?_getD, List.getElem?_eq_none (by omega)]
      simp
    rw [himg]

/-- Pointwise behaviour of the 2-D raster constant fill. -/
theorem constFillGrid_pointwise (g : Grid) (dm : BMask) (v : Int) (p : Pos) :
    gridGet (constFillGrid g dm v) p =
      if p.1 < g.length ∧ p.2 < (g.getD p.1 []).length ∧ bmaskGet dm p then v
      else gridGet g p := by
  obtain ⟨i, j⟩ := p
  unfold constFillGrid gridGet
  rw [getD_range_map]
  by_cases hi : i < g.length
  · simp only [hi, if_true, true_and]
    rw [getD_range_map]
    by_cases hj : j < (g.getD i []).length
    · simp only [hj, if_true, true_and]
    · simp only [hj, if_false, false_and, if_false]
      rw [List.getD_eq_getElem?_getD ((g.getD i [] : List Int)) j,
        List.getElem?_eq_none (by omega)]
      simp
  · simp only [hi, if_false, false_and, if_false]
    have hg : g.getD i ([] : List Int) = [] := by
      rw [List.getD_eq_getElem?_getD, List.getElem?_eq_none (by omega)]
      simp
    rw [hg]

/-- C3: for every input mask in which connected-component labeling finds zero
components, `get_params_dependent_on_targets` produces a `None` dropout mask
(consuming no randomness), and `apply` and `apply_to_mask` — for `MaskDropout`
and `MaskDropoutV2` alike — return the image and the mask identical to their
inputs, with no mutation performed. -/
theorem claim_C3_zero_components_identity (t : MaskDropoutT) (mask seg : Grid)
    (img : Image) (s : RandState) (hN : numLabels mask = 0) :
    MaskDropout.get_params_dependent_on_targets t mask s = some (none, s) ∧
    MaskDropoutV2.get_params_dependent_on_targets t mask s = some (none, s) ∧
    MaskDropout.apply t img none = Except.ok img ∧
    MaskDropout.apply_to_mask t seg none = seg ∧
    MaskDropoutV2.apply t img none = Except.ok img ∧
    MaskDropoutV2.apply_to_mask t seg none = seg := by
  refine ⟨?_, ?_, rfl, rfl, rfl, rfl⟩
  · unfold MaskDropout.get_params_dependent_on_targets
    simp [hN]
  · unfold MaskDropoutV2.get_params_dependent_on_targets
    simp [hN]

theorem claim_C3_witness :
    numLabels [[0, 0], [0, 0]] = 0 ∧
    MaskDropout.get_params_dependent_on_targets
        ⟨false, 1 / 2, PyVal.pair (PyVal.int 1) (PyVal.int 3), PyVal.int 0, 0⟩
        [[0, 0], [0, 0]] ⟨7⟩ = some (none, ⟨7⟩) ∧
    MaskDropout.apply
        ⟨false, 1 / 2, PyVal.pair (PyVal.int 1) (PyVal.int 3), PyVal.int 0, 0⟩
        [[[9, 9, 9]]] none = Except.ok [[[9, 9, 9]]] ∧
    MaskDropout.apply_to_mask
        ⟨false, 1 / 2, PyVal.pair (PyVal.int 1) (PyVal.int 3), PyVal.int 0, 0⟩
        [[0, 0], [0, 0]] none = [[0, 0], [0, 0]] := by
  refine ⟨by decide, ?_, ?_, ?_⟩
  · exact (claim_C3_zero_components_identity _ [[0, 0], [0, 0]] [[0, 0], [0, 0]]
      [[[9, 9, 9]]] ⟨7⟩ (by decide)).1
  · exact (claim_C3_zero_components_identity _ [[0, 0], [0, 0]] [[0, 0], [0, 0]]
      [[[9, 9, 9]]] ⟨7⟩ (by decide)).2.2.1
  · exact (claim_C3_zero_components_identity _ [[0, 0], [0, 0]] [[0, 0], [0, 0]]
      [[[9, 9, 9]]] ⟨7⟩ (by decide)).2.2.2.1

/-- C10: for all `always_apply` and `p` arguments, `MaskDropoutV2.__init__`
produces a transform whose activation probability and always-apply flag are
the base-class defaults `p = 0.5` and `always_apply = False`: the caller's
`always_apply` and `p` are forwarded positionally into the parent's
`max_objects` and `image_fill_value` parameters and then overwritten, so they
have no effect on the constructed state. -/
theorem claim_C10_v2_init_ignores_gating_args (mo ifv : PyVal) (mfv : Int)
    (aa : Bool) (p : ℚ) :
    MaskDropoutV2.init mo ifv mfv aa p =
      Except.ok { always_apply := false, p := 1 / 2, max_objects := mo,
                  image_fill_value := ifv, mask_fill_value := mfv } := rfl

/-- C4 counterexample: constructing with invalid count bounds raises nothing.
`MaskDropout(max_objects=(5, 2))` (min > max) and
`MaskDropoutV2(max_objects=(0.9, 0.1))` (fmin > fmax) both succeed, refuting
the claim that a configuration error is raised in the constructor. -/
theorem claim_C4_counterexample :
    MaskDropout.init (PyVal.pair (PyVal.int 5) (PyVal.int 2)) (PyVal.int 0) 0
        false (1 / 2) =
      Except.ok ⟨false, 1 / 2, PyVal.pair (PyVal.int 5) (PyVal.int 2),
        PyVal.int 0, 0⟩ ∧
    MaskDropoutV2.init (PyVal.pair (PyVal.rat (9 / 10)) (PyVal.rat (1 / 10)))
        (PyVal.int 0) 0 false (1 / 2) =
      Except.ok ⟨false, 1 / 2,
        PyVal.pair (PyVal.rat (9 / 10)) (PyVal.rat (1 / 10)), PyVal.int 0, 0⟩ := by
  exact ⟨rfl, rfl⟩

/-- C4 amended: the constructors perform no validation of the count bounds
and always succeed — invalid bounds (min > max, negative, fractions outside
`[0,1]`) are stored as given; with min > max the failure surfaces only later,
at parameter-sampling time, where `random.randint` raises `ValueError`. -/
theorem claim_C4_no_configuration_validation (mo ifv : PyVal) (mfv : Int)
    (aa : Bool) (p : ℚ) :
    (∃ t, MaskDropout.init mo ifv mfv aa p = Except.ok t) ∧
    (∃ t, MaskDropoutV2.init mo ifv mfv aa p = Except.ok t) ∧
    (∀ (t : MaskDropoutT) (mask : Grid) (s : RandState) (a b : Int),
      t.max_objects = PyVal.pair (PyVal.int a) (PyVal.int b) → b < a →
      numLabels mask ≠ 0 → MaskDropout.get_params_dependent_on_targets t mask s = none) := by
  refine ⟨⟨_, rfl⟩, ⟨_, rfl⟩, ?_⟩
  intro t mask s a b hmo hba hN
  unfold MaskDropout.get_params_dependent_on_targets
  have hr : randint a b s = none := by
    unfold randint
    simp [show ¬ a ≤ b by omega]
  simp [hN, hmo, asIntPair, hr]

theorem claim_C4_no_configuration_validation_witness :
    (∃ t, MaskDropout.init (PyVal.pair (PyVal.int 5) (PyVal.int 2)) (PyVal.int 0)
        0 false (1 / 2) = Except.ok t) ∧
    MaskDropout.get_params_dependent_on_targets
        ⟨false, 1 / 2, PyVal.pair (PyVal.int 5) (PyVal.int 2), PyVal.int 0, 0⟩
        [[1]] ⟨3⟩ = none := by
  refine ⟨(claim_C4_no_configuration_validation
    (PyVal.pair (PyVal.int 5) (PyVal.int 2)) (PyVal.int 0) 0 false (1 / 2)).1, ?_⟩
  exact (claim_C4_no_configuration_validation
      (PyVal.pair (PyVal.int 5) (PyVal.int 2)) (PyVal.int 0) 0 false (1 / 2)).2.2
    _ [[1]] ⟨3⟩ 5 2 rfl (by decide) (by decide)

/-- C9: the method `get_params_dependent_on_targets` is a pure function of the
configuration, the generator state and the mask: two runs with the generator
seeded identically on the identical input mask return the identical parameter
dictionary (hence the identical selected ids and dropout mask), for both
classes. -/
theorem claim_C9_fixed_seed_determinism (t : MaskDropoutT) (mask1 mask2 : Grid)
    (s1 s2 : RandState) (hm : mask1 = mask2) (hs : s1 = s2) :
    MaskDropout.get_params_dependent_on_targets t mask1 s1 = MaskDropout.get_params_dependent_on_targets t mask2 s2 ∧
    MaskDropoutV2.get_params_dependent_on_targets t mask1 s1 = MaskDropoutV2.get_params_dependent_on_targets t mask2 s2 := by
  subst hm
  subst hs
  exact ⟨rfl, rfl⟩

theorem claim_C9_fixed_seed_determinism_witness :
    MaskDropout.get_params_dependent_on_targets
        ⟨false, 1 / 2, PyVal.pair (PyVal.int 1) (PyVal.int 2), PyVal.int 0, 0⟩
        [[1, 0, 2]] ⟨42⟩ =
      MaskDropout.get_params_dependent_on_targets
        ⟨false, 1 / 2, PyVal.pair (PyVal.int 1) (PyVal.int 2), PyVal.int 0, 0⟩
        [[1, 0, 2]] ⟨42⟩ :=
  (claim_C9_fixed_seed_determinism _ [[1, 0, 2]] [[1, 0, 2]] ⟨42⟩ ⟨42⟩ rfl rfl).1

/-- C5 counterexample: with the `"inpaint"` fill spec, `apply` on a 1-channel
image does NOT raise — OpenCV's `inpaint` supports 1-channel (and 3-channel)
inputs — refuting the claim that any channel count other than 3 errors. -/
theorem claim_C5_counterexample :
    (MaskDropout.apply
        ⟨false, 1 / 2, PyVal.pair (PyVal.int 1) (PyVal.int 1),
          PyVal.str "inpaint", 0⟩
        [[[5], [6]], [[7], [8]]]
        (some [[true, false], [false, false]])).isOk = true := by
  rfl

/-- C5 amended: with the `"inpaint"` fill spec, `apply` raises the
backend's unsupported-input error exactly when the image's channel count is
neither 1 nor 3 (so a 2- or 4-channel image errors, while 1- and 3-channel
images are inpainted); the functional embedding returns the error without
producing any modified image. -/
theorem claim_C5_inpaint_channel_error (t : MaskDropoutT) (img : Image)
    (dm : BMask) (hfill : t.image_fill_value = PyVal.str "inpaint")
    (hc1 : imageChannels img ≠ 1) (hc3 : imageChannels img ≠ 3) :
    MaskDropout.apply t img (some dm) = Except.error PyErr.cv2Error := by
  unfold MaskDropout.apply
  rw [hfill]
  simp only [if_true]
  unfold cv2Inpaint
  simp [hc1, hc3]

theorem claim_C5_inpaint_channel_error_witness :
    imageChannels [[[5, 5], [6, 6]], [[7, 7], [8, 8]]] = 2 ∧
    MaskDropout.apply
        ⟨false, 1 / 2, PyVal.pair (PyVal.int 1) (PyVal.int 1),
          PyVal.str "inpaint", 0⟩
        [[[5, 5], [6, 6]], [[7, 7], [8, 8]]]
        (some [[true, false], [false, false]]) =
      Except.error PyErr.cv2Error := by
  refine ⟨by decide, ?_⟩
  exact claim_C5_inpaint_channel_error _ [[[5, 5], [6, 6]], [[7, 7], [8, 8]]]
    [[true, false], [false, false]] rfl (by decide) (by decide)

theorem nonzeroMask_get (g : Grid) (p : Pos) :
    bmaskGet (nonzeroMask g) p = decide (0 < gridGet g p) := by
  obtain ⟨i, j⟩ := p
  unfold bmaskGet nonzeroMask gridGet
  by_cases hi : i < g.length
  · have hrow : (g.map (List.map fun v => decide (0 < v))).getD i [] =
        List.map (fun v => decide (0 < v)) g[i] := by
      rw [List.getD_eq_getElem?_getD, List.getElem?_map, List.getElem?_eq_getElem hi]
      rfl
    rw [hrow, List.getD_eq_getElem g [] hi]
    by_cases hj : j < g[i].length
    · rw [List.getD_eq_getElem?_getD, List.getElem?_map, List.getElem?_eq_getElem hj,
        List.getD_eq_getElem _ 0 hj]
      rfl
    · rw [List.getD_eq_getElem?_getD, List.getElem?_eq_none (by simpa using Nat.le_of_not_lt hj),
        List.getD_eq_getElem?_getD, List.getElem?_eq_none (Nat.le_of_not_lt hj)]
      simp
  · have h1 : (g.map (List.map fun v => decide (0 < v))).getD i [] = [] := by
      rw [List.getD_eq_getElem?_getD, List.getElem?_eq_none (by simpa using Nat.le_of_not_lt hi)]
      rfl
    have h2 : g.getD i [] = [] := by
      rw [List.getD_eq_getElem?_getD, List.getElem?_eq_none (Nat.le_of_not_lt hi)]
      rfl
    rw [h1, h2]
    simp

theorem gridGet_nonneg_of_all {g : Grid}
    (h : g.all (fun row => row.all fun v => decide (0 ≤ v)) = true) :
    ∀ p : Pos, 0 ≤ gridGet g p := by
  intro p
  obtain ⟨i, j⟩ := p
  unfold gridGet
  by_cases hi : i < g.length
  · rw [List.getD_eq_getElem g [] hi]
    by_cases hj : j < g[i].length
    · rw [List.getD_eq_getElem _ 0 hj]
      rw [List.all_eq_true] at h
      have h2 := h g[i] (List.getElem_mem hi)
      rw [List.all_eq_true] at h2
      simpa using h2 (g[i])[j] (List.getElem_mem hj)
    · rw [List.getD_eq_getElem?_getD, List.getElem?_eq_none (Nat.le_of_not_lt hj)]
      simp
  · rw [List.getD_eq_getElem?_getD (l := g), List.getElem?_eq_none (Nat.le_of_not_lt hi)]
    simp

/-- C2: under the fixed-count policy with stored bounds `(a, b)` and a mask
with `N ≥ 1` components whose values are non-negative,
`MaskDropout.get_params_dependent_on_targets` draws `r` uniformly in `[a, b]`
and clips it to `min(N, r)`; whenever the clipped count equals `N` it selects
every label without sampling, returning the dropout mask `mask > 0`, which is
true exactly on the foreground (nonzero) pixels of the input mask. -/
theorem claim_C2_fixed_policy_clip_and_full_selection (t : MaskDropoutT)
    (mask : Grid) (s : RandState) (a b : Int)
    (hmo : t.max_objects = PyVal.pair (PyVal.int a) (PyVal.int b))
    (hab : a ≤ b) (hN : numLabels mask ≠ 0)
    (hpos : mask.all (fun row => row.all fun v => decide (0 ≤ v)) = true) :
    ∃ r s1, randint a b s = some (r, s1) ∧ a ≤ r ∧ r ≤ b ∧
      (min ((numLabels mask : Int)) r = (numLabels mask : Int) →
        MaskDropout.get_params_dependent_on_targets t mask s = some (some (nonzeroMask mask), s1) ∧
        ∀ p : Pos, bmaskGet (nonzeroMask mask) p = true ↔ gridGet mask p ≠ 0) := by
  obtain ⟨⟨r, s1⟩, hr⟩ := Option.isSome_iff_exists.mp (randint_isSome_of_le s hab)
  obtain ⟨hlo, hhi⟩ := randint_mem_range hr
  refine ⟨r, s1, hr, hlo, hhi, fun hclip => ⟨?_, ?_⟩⟩
  · unfold MaskDropout.get_params_dependent_on_targets
    rw [hmo]
    simp [hN, asIntPair, hr, hclip]
  · intro p
    rw [nonzeroMask_get]
    have hnn := gridGet_nonneg_of_all hpos p
    constructor
    · intro hdec
      have := of_decide_eq_true hdec
      omega
    · intro hne
      exact decide_eq_true (by omega)

theorem claim_C2_witness :
    ∃ r s1, randint 1 1 ⟨0⟩ = some (r, s1) ∧ 1 ≤ r ∧ r ≤ 1 ∧
      (min ((numLabels [[1]] : Int)) r = (numLabels [[1]] : Int) →
        MaskDropout.get_params_dependent_on_targets
            ⟨false, 1 / 2, PyVal.pair (PyVal.int 1) (PyVal.int 1), PyVal.int 0, 0⟩
            [[1]] ⟨0⟩ = some (some (nonzeroMask [[1]]), s1) ∧
        ∀ p : Pos, bmaskGet (nonzeroMask [[1]]) p = true ↔ gridGet [[1]] p ≠ 0) :=
  claim_C2_fixed_policy_clip_and_full_selection _ [[1]] ⟨0⟩ 1 1 rfl (by decide)
    (by decide) (by decide)

/-- C1: for every mask with `N ≥ 1` components and either configured count
policy (fixed bounds `0 ≤ a ≤ b`; fraction bounds `0 ≤ fmin ≤ fmax ≤ 1` as the
configuration contract requires), the drawn object count lies within the
configured bounds clipped to `[0, N]`; in particular the fraction policy of
`MaskDropoutV2.get_params_dependent_on_targets` draws
`k ∈ [int(N*fmin), int(N*fmax)] ⊆ [0, N]`, so `random.sample` is never asked
for more ids than the `N` existing labels and the call succeeds. -/
theorem claim_C1_drawn_count_within_clipped_bounds :
    (∀ (t : MaskDropoutT) (mask : Grid) (s : RandState) (a b : Int),
      t.max_objects = PyVal.pair (PyVal.int a) (PyVal.int b) →
      0 ≤ a → a ≤ b → numLabels mask ≠ 0 →
      ∃ r s1, randint a b s = some (r, s1) ∧
        min a ((numLabels mask : Int)) ≤ min ((numLabels mask : Int)) r ∧
        min ((numLabels mask : Int)) r ≤ min b ((numLabels mask : Int)) ∧
        0 ≤ min ((numLabels mask : Int)) r ∧
        min ((numLabels mask : Int)) r ≤ (numLabels mask : Int) ∧
        (MaskDropout.get_params_dependent_on_targets t mask s).isSome) ∧
    (∀ (t : MaskDropoutT) (mask : Grid) (s : RandState) (fmin fmax : ℚ),
      t.max_objects = PyVal.pair (PyVal.rat fmin) (PyVal.rat fmax) →
      0 ≤ fmin → fmin ≤ fmax → fmax ≤ 1 → numLabels mask ≠ 0 →
      ∃ k s1 ids s2,
        randint (pyInt ((numLabels mask : ℚ) * fmin))
            (pyInt ((numLabels mask : ℚ) * fmax)) s = some (k, s1) ∧
        pyInt ((numLabels mask : ℚ) * fmin) ≤ k ∧
        k ≤ pyInt ((numLabels mask : ℚ) * fmax) ∧
        0 ≤ k ∧ k ≤ (numLabels mask : Int) ∧
        sample (List.range' 1 (numLabels mask)) k s1 = some (ids, s2) ∧
        MaskDropoutV2.get_params_dependent_on_targets t mask s =
          some (some (buildDropoutMask mask ids), s2)) := by
  constructor
  · intro t mask s a b hmo ha hab hN
    obtain ⟨⟨r, s1⟩, hr⟩ := Option.isSome_iff_exists.mp (randint_isSome_of_le s hab)
    obtain ⟨hlo, hhi⟩ := randint_mem_range hr
    have hNpos : (1 : Int) ≤ (numLabels mask : Int) := by
      have : numLabels mask ≠ 0 := hN
      omega
    refine ⟨r, s1, hr, by omega, by omega, by omega, by omega, ?_⟩
    unfold MaskDropout.get_params_dependent_on_targets
    rw [hmo]
    simp only [hN, if_false, asIntPair, hr]
    by_cases hclip : min ((numLabels mask : Int)) r = (numLabels mask : Int)
    · simp [hclip]
    · simp only [hclip, if_false]
      have hks : (sample (List.range' 1 (numLabels mask))
          (min ((numLabels mask : Int)) r) s1).isSome := by
        apply sample_isSome
        · omega
        · rw [List.length_range']
          omega
      obtain ⟨⟨ids, s2⟩, hsamp⟩ := Option.isSome_iff_exists.mp hks
      simp [hsamp]
  · intro t mask s fmin fmax hmo h0 h1 h2 hN
    have hNpos : (1 : Int) ≤ (numLabels mask : Int) := by omega
    have hq1 : (0 : ℚ) ≤ (numLabels mask : ℚ) * fmin := by positivity
    have hq2 : (0 : ℚ) ≤ (numLabels mask : ℚ) * fmax := by
      have := h0.trans h1
      positivity
    have hp1 : pyInt ((numLabels mask : ℚ) * fmin) = ⌊(numLabels mask : ℚ) * fmin⌋ := by
      unfold pyInt
      simp [hq1]
    have hp2 : pyInt ((numLabels mask : ℚ) * fmax) = ⌊(numLabels mask : ℚ) * fmax⌋ := by
      unfold pyInt
      simp [hq2]
    have hmono : pyInt ((numLabels mask : ℚ) * fmin) ≤ pyInt ((numLabels mask : ℚ) * fmax) := by
      rw [hp1, hp2]
      exact Int.floor_mono (mul_le_mul_of_nonneg_left h1 (by positivity))
    have hlb : 0 ≤ pyInt ((numLabels mask : ℚ) * fmin) := by
      rw [hp1]
      exact Int.floor_nonneg.mpr hq1
    have hub : pyInt ((numLabels mask : ℚ) * fmax) ≤ (numLabels mask : Int) := by
      rw [hp2]
      calc ⌊(numLabels mask : ℚ) * fmax⌋ ≤ ⌊(numLabels mask : ℚ)⌋ := by
            apply Int.floor_mono
            calc (numLabels mask : ℚ) * fmax ≤ (numLabels mask : ℚ) * 1 :=
                  mul_le_mul_of_nonneg_left h2 (by positivity)
              _ = (numLabels mask : ℚ) := mul_one _
        _ = (numLabels mask : Int) := Int.floor_natCast _
    obtain ⟨⟨k, s1⟩, hr⟩ :=
      Option.isSome_iff_exists.mp (randint_isSome_of_le s hmono)
    obtain ⟨hlo, hhi⟩ := randint_mem_range hr
    have hks : (sample (List.range' 1 (numLabels mask)) k s1).isSome := by
      apply sample_isSome
      · omega
      · rw [List.length_range']
        omega
    obtain ⟨⟨ids, s2⟩, hsamp⟩ := Option.isSome_iff_exists.mp hks
    refine ⟨k, s1, ids, s2, hr, hlo, hhi, by omega, by omega, hsamp, ?_⟩
    unfold MaskDropoutV2.get_params_dependent_on_targets
    rw [hmo]
    simp [hN, asRatPair, ratOf, hr, hsamp]

theorem claim_C1_witness :
    (∃ r s1, randint 1 2 ⟨5⟩ = some (r, s1) ∧
      min 1 ((numLabels [[1, 0, 2]] : Int)) ≤ min ((numLabels [[1, 0, 2]] : Int)) r ∧
      min ((numLabels [[1, 0, 2]] : Int)) r ≤ min 2 ((numLabels [[1, 0, 2]] : Int)) ∧
      0 ≤ min ((numLabels [[1, 0, 2]] : Int)) r ∧
      min ((numLabels [[1, 0, 2]] : Int)) r ≤ (numLabels [[1, 0, 2]] : Int) ∧
      (MaskDropout.get_params_dependent_on_targets
        ⟨false, 1 / 2, PyVal.pair (PyVal.int 1) (PyVal.int 2), PyVal.int 0, 0⟩
        [[1, 0, 2]] ⟨5⟩).isSome) ∧
    (∃ k s1 ids s2,
      randint (pyInt ((numLabels [[1, 0, 2]] : ℚ) * (1 / 2)))
          (pyInt ((numLabels [[1, 0, 2]] : ℚ) * (1 / 2))) ⟨5⟩ = some (k, s1) ∧
      pyInt ((numLabels [[1, 0, 2]] : ℚ) * (1 / 2)) ≤ k ∧
      k ≤ pyInt ((numLabels [[1, 0, 2]] : ℚ) * (1 / 2)) ∧
      0 ≤ k ∧ k ≤ (numLabels [[1, 0, 2]] : Int) ∧
      sample (List.range' 1 (numLabels [[1, 0, 2]])) k s1 = some (ids, s2) ∧
      MaskDropoutV2.get_params_dependent_on_targets
          ⟨false, 1 / 2, PyVal.pair (PyVal.rat (1 / 2)) (PyVal.rat (1 / 2)),
            PyVal.int 0, 0⟩ [[1, 0, 2]] ⟨5⟩ =
        some (some (buildDropoutMask [[1, 0, 2]] ids), s2)) :=
  ⟨claim_C1_drawn_count_within_clipped_bounds.1 _ [[1, 0, 2]] ⟨5⟩ 1 2 rfl
      (by decide) (by decide) (by decide),
    claim_C1_drawn_count_within_clipped_bounds.2 _ [[1, 0, 2]] ⟨5⟩ (1 / 2) (1 / 2)
      rfl (by norm_num) (by norm_num) (by norm_num) (by decide)⟩

theorem mem_range_one (N x : Nat) (h : x ∈ List.range' 1 N) : 1 ≤ x ∧ x ≤ N := by
  rw [List.mem_range'] at h
  obtain ⟨i, hi, rfl⟩ := h
  omega

/-- C6: whenever the sampling path of `get_params_dependent_on_targets` runs
(for `MaskDropout`: the clipped count differs from `N`; for `MaskDropoutV2`:
always), the selected label ids are distinct elements of `{1..N}` (sampling
without replacement) and their number equals the drawn (for `MaskDropout`:
clipped) count exactly; the resulting parameters hold the dropout mask built
from exactly those ids. -/
theorem claim_C6_selected_ids_subset_and_count :
    (∀ (t : MaskDropoutT) (mask : Grid) (s s1 s2 : RandState) (a b r : Int)
        (ids : List Nat),
      t.max_objects = PyVal.pair (PyVal.int a) (PyVal.int b) →
      numLabels mask ≠ 0 →
      randint a b s = some (r, s1) →
      min ((numLabels mask : Int)) r ≠ (numLabels mask : Int) →
      sample (List.range' 1 (numLabels mask)) (min ((numLabels mask : Int)) r) s1 =
        some (ids, s2) →
      (ids.length : Int) = min ((numLabels mask : Int)) r ∧ ids.Nodup ∧
        (∀ x ∈ ids, 1 ≤ x ∧ x ≤ numLabels mask) ∧
        MaskDropout.get_params_dependent_on_targets t mask s =
          some (some (buildDropoutMask mask ids), s2)) ∧
    (∀ (t : MaskDropoutT) (mask : Grid) (s s1 s2 : RandState) (fmin fmax : ℚ)
        (k : Int) (ids : List Nat),
      t.max_objects = PyVal.pair (PyVal.rat fmin) (PyVal.rat fmax) →
      numLabels mask ≠ 0 →
      randint (pyInt ((numLabels mask : ℚ) * fmin))
          (pyInt ((numLabels mask : ℚ) * fmax)) s = some (k, s1) →
      sample (List.range' 1 (numLabels mask)) k s1 = some (ids, s2) →
      (ids.length : Int) = k ∧ ids.Nodup ∧
        (∀ x ∈ ids, 1 ≤ x ∧ x ≤ numLabels mask) ∧
        MaskDropoutV2.get_params_dependent_on_targets t mask s =
          some (some (buildDropoutMask mask ids), s2)) := by
  constructor
  · intro t mask s s1 s2 a b r ids hmo hN hrand hne hsamp
    obtain ⟨_, _, hlen, hnd, hmem⟩ := sample_spec (List.nodup_range' ..) hsamp
    refine ⟨by simpa using hlen, hnd,
      fun x hx => mem_range_one _ _ (hmem x hx), ?_⟩
    unfold MaskDropout.get_params_dependent_on_targets
    rw [hmo]
    simp [hN, asIntPair, hrand, hne, hsamp]
  · intro t mask s s1 s2 fmin fmax k ids hmo hN hrand hsamp
    obtain ⟨_, _, hlen, hnd, hmem⟩ := sample_spec (List.nodup_range' ..) hsamp
    refine ⟨by simpa using hlen, hnd,
      fun x hx => mem_range_one _ _ (hmem x hx), ?_⟩
    unfold MaskDropoutV2.get_params_dependent_on_targets
    rw [hmo]
    simp [hN, asRatPair, ratOf, hrand, hsamp]

theorem claim_C6_witness :
    (((([1] : List Nat).length : Int) = min ((numLabels [[1, 0, 2]] : Int)) 1 ∧
      ([1] : List Nat).Nodup ∧
      (∀ x ∈ ([1] : List Nat), 1 ≤ x ∧ x ≤ numLabels [[1, 0, 2]]) ∧
      MaskDropout.get_params_dependent_on_targets
          ⟨false, 1 / 2, PyVal.pair (PyVal.int 1) (PyVal.int 1), PyVal.int 0, 0⟩
          [[1, 0, 2]] ⟨0⟩ =
        some (some (buildDropoutMask [[1, 0, 2]] [1]), ⟨3554416254⟩)) ∧
    ((([1] : List Nat).length : Int) = 1 ∧ ([1] : List Nat).Nodup ∧
      (∀ x ∈ ([1] : List Nat), 1 ≤ x ∧ x ≤ numLabels [[1, 0, 2]]) ∧
      MaskDropoutV2.get_params_dependent_on_targets
          ⟨false, 1 / 2, PyVal.pair (PyVal.rat (1 / 2)) (PyVal.rat (1 / 2)),
            PyVal.int 0, 0⟩ [[1, 0, 2]] ⟨0⟩ =
        some (some (buildDropoutMask [[1, 0, 2]] [1]), ⟨3554416254⟩))) :=
  ⟨claim_C6_selected_ids_subset_and_count.1 _ [[1, 0, 2]] ⟨0⟩ ⟨12345⟩
      ⟨3554416254⟩ 1 1 1 [1] rfl (by decide) (by decide) (by decide) (by decide),
    claim_C6_selected_ids_subset_and_count.2 _ [[1, 0, 2]] ⟨0⟩ ⟨12345⟩
      ⟨3554416254⟩ (1 / 2) (1 / 2) 1 [1] rfl (by decide)
      (by
        have h2 : numLabels [[1, 0, 2]] = 2 := by decide
        rw [h2]
        have h3 : pyInt (((2 : Nat) : ℚ) * (1 / 2)) = 1 := by norm_num [pyInt]
        rw [h3]
        decide)
      (by decide)⟩

theorem getD_length_eq {α β : Type} (xs : List (List α)) (ys : List (List β))
    (h : xs.map List.length = ys.map List.length) (i : Nat) :
    (xs.getD i []).length = (ys.getD i []).length := by
  have hlen : xs.length = ys.length := by simpa using congrArg List.length h
  have h2 : (xs[i]?).map List.length = (ys[i]?).map List.length := by
    rw [← List.getElem?_map, ← List.getElem?_map, h]
  by_cases hi : i < xs.length
  · rw [List.getD_eq_getElem xs [] hi, List.getD_eq_getElem ys [] (by omega)]
    rw [List.getElem?_eq_getElem hi,
      List.getElem?_eq_getElem (show i < ys.length by omega)] at h2
    simpa using h2
  · rw [List.getD_eq_getElem?_getD, List.getElem?_eq_none (by omega),
      List.getD_eq_getElem?_getD (l := ys), List.getElem?_eq_none (by omega)]
    rfl

/-- C7: for one dropout mask computed by a single
`get_params_dependent_on_targets` call and a constant image fill, `apply` and
`apply_to_mask` constant-fill copies of the image and the mask against that
same mask: pixels change only where the dropout mask is true, every in-range
true position is filled in both outputs (all channels of the image pixel get
the fill value, the mask pixel gets `mask_fill_value`), and — the image and
mask having equal spatial shape — the filled footprints coincide exactly. -/
theorem claim_C7_coincident_footprints (t : MaskDropoutT) (mask seg : Grid)
    (img : Image) (dm : BMask) (s s' : RandState) (v : Int)
    (_hget : MaskDropout.get_params_dependent_on_targets t mask s = some (some dm, s'))
    (hfill : t.image_fill_value = PyVal.int v)
    (hshape : img.map List.length = seg.map List.length) :
    MaskDropout.apply t img (some dm) = Except.ok (constFillImage img dm v) ∧
    MaskDropout.apply_to_mask t seg (some dm) =
      constFillGrid seg dm t.mask_fill_value ∧
    (∀ p : Pos, bmaskGet dm p = false →
      pixelGet (constFillImage img dm v) p = pixelGet img p ∧
      gridGet (constFillGrid seg dm t.mask_fill_value) p = gridGet seg p) ∧
    (∀ p : Pos, p.1 < img.length → p.2 < (img.getD p.1 []).length →
      bmaskGet dm p = true →
      pixelGet (constFillImage img dm v) p = (pixelGet img p).map (fun _ => v) ∧
      gridGet (constFillGrid seg dm t.mask_fill_value) p = t.mask_fill_value) ∧
    (∀ p : Pos,
      (p.1 < img.length ∧ p.2 < (img.getD p.1 []).length ∧ bmaskGet dm p = true) ↔
      (p.1 < seg.length ∧ p.2 < (seg.getD p.1 []).length ∧ bmaskGet dm p = true)) := by
  have hlen : img.length = seg.length := by simpa using congrArg List.length hshape
  refine ⟨?_, rfl, ?_, ?_, ?_⟩
  · unfold MaskDropout.apply
    rw [hfill]
    simp [asIntFill]
  · intro p hbp
    constructor
    · rw [constFillImage_pointwise, if_neg (by simp [hbp])]
    · rw [constFillGrid_pointwise, if_neg (by simp [hbp])]
  · intro p h1 h2 hbp
    constructor
    · rw [constFillImage_pointwise, if_pos ⟨h1, h2, hbp⟩]
    · have h1' : p.1 < seg.length := by omega
      have h2' : p.2 < (seg.getD p.1 []).length := by
        have := getD_length_eq img seg hshape p.1
        omega
      rw [constFillGrid_pointwise, if_pos ⟨h1', h2', hbp⟩]
  · intro p
    have := getD_length_eq img seg hshape p.1
    constructor
    · rintro ⟨ha, hb, hc⟩
      exact ⟨by omega, by omega, hc⟩
    · rintro ⟨ha, hb, hc⟩
      exact ⟨by omega, by omega, hc⟩

theorem claim_C7_witness :
    MaskDropout.apply
        ⟨false, 1 / 2, PyVal.pair (PyVal.int 1) (PyVal.int 1), PyVal.int 7, 9⟩
        [[[10, 20], [30, 40], [50, 60]]] (some [[true, false, false]]) =
      Except.ok (constFillImage [[[10, 20], [30, 40], [50, 60]]]
        [[true, false, false]] 7) ∧
    MaskDropout.apply_to_mask
        ⟨false, 1 / 2, PyVal.pair (PyVal.int 1) (PyVal.int 1), PyVal.int 7, 9⟩
        [[1, 0, 2]] (some [[true, false, false]]) =
      constFillGrid [[1, 0, 2]] [[true, false, false]] 9 ∧
    (∀ p : Pos, bmaskGet [[true, false, false]] p = false →
      pixelGet (constFillImage [[[10, 20], [30, 40], [50, 60]]]
          [[true, false, false]] 7) p =
        pixelGet [[[10, 20], [30, 40], [50, 60]]] p ∧
      gridGet (constFillGrid [[1, 0, 2]] [[true, false, false]] 9) p =
        gridGet [[1, 0, 2]] p) ∧
    (∀ p : Pos, p.1 < ([[[10, 20], [30, 40], [50, 60]]] : Image).length →
      p.2 < (([[[10, 20], [30, 40], [50, 60]]] : Image).getD p.1 []).length →
      bmaskGet [[true, false, false]] p = true →
      pixelGet (constFillImage [[[10, 20], [30, 40], [50, 60]]]
          [[true, false, false]] 7) p =
        (pixelGet [[[10, 20], [30, 40], [50, 60]]] p).map (fun _ => 7) ∧
      gridGet (constFillGrid [[1, 0, 2]] [[true, false, false]] 9) p = 9) ∧
    (∀ p : Pos,
      (p.1 < ([[[10, 20], [30, 40], [50, 60]]] : Image).length ∧
        p.2 < (([[[10, 20], [30, 40], [50, 60]]] : Image).getD p.1 []).length ∧
        bmaskGet [[true, false, false]] p = true) ↔
      (p.1 < ([[1, 0, 2]] : Grid).length ∧
        p.2 < (([[1, 0, 2]] : Grid).getD p.1 []).length ∧
        bmaskGet [[true, false, false]] p = true)) :=
  claim_C7_coincident_footprints
    ⟨false, 1 / 2, PyVal.pair (PyVal.int 1) (PyVal.int 1), PyVal.int 7, 9⟩
    [[1, 0, 2]] [[1, 0, 2]] [[[10, 20], [30, 40], [50, 60]]]
    [[true, false, false]] ⟨0⟩ ⟨3554416254⟩ 7 (by decide) rfl (by decide)

/-- The positions at which a dropout mask is true (the spec's "true region"). -/
def truePositions (m : BMask) : List Pos :=
  ((List.range m.length).flatMap fun i =>
    (List.range ((m.getD i []).length)).map fun j => ((i, j) : Pos)).filter
    fun p => bmaskGet m p

/-- Width of the axis-aligned bounding box of a dropout mask's true region,
written from the spec wording: greatest true column minus least true column
plus one (`0` for an empty region). -/
def bboxWidth (m : BMask) : Nat :=
  match ((truePositions m).map Prod.snd).min?,
      ((truePositions m).map Prod.snd).max? with
  | some lo, some hi => hi - lo + 1
  | _, _ => 0

/-- Height of the axis-aligned bounding box of the true region. -/
def bboxHeight (m : BMask) : Nat :=
  match ((truePositions m).map Prod.fst).min?,
      ((truePositions m).map Prod.fst).max? with
  | some lo, some hi => hi - lo + 1
  | _, _ => 0

theorem flatMap_congr_of_mem {α β : Type} {l : List α} {f g : α → List β}
    (h : ∀ x ∈ l, f x = g x) : l.flatMap f = l.flatMap g := by
  induction l with
  | nil => rfl
  | cons a t ih =>
    simp only [List.flatMap_cons]
    rw [h a (by simp), ih (fun x hx => h x (by simp [hx]))]

theorem gridGet_bmaskToU8 (m : BMask) (p : Pos) :
    gridGet (bmaskToU8 m) p = if bmaskGet m p then 1 else 0 := by
  obtain ⟨i, j⟩ := p
  unfold gridGet bmaskToU8 bmaskGet
  by_cases hi : i < m.length
  · have hrow : (m.map (List.map fun b => if b then (1 : Int) else 0)).getD i [] =
        List.map (fun b => if b then (1 : Int) else 0) m[i] := by
      rw [List.getD_eq_getElem?_getD, List.getElem?_map, List.getElem?_eq_getElem hi]
      rfl
    rw [hrow, List.getD_eq_getElem m [] hi]
    by_cases hj : j < m[i].length
    · rw [List.getD_eq_getElem?_getD, List.getElem?_map, List.getElem?_eq_getElem hj,
        List.getD_eq_getElem _ false hj]
      rfl
    · rw [List.getD_eq_getElem?_getD,
        List.getElem?_eq_none (by simpa using Nat.le_of_not_lt hj),
        List.getD_eq_getElem?_getD, List.getElem?_eq_none (Nat.le_of_not_lt hj)]
      simp
  · have h1 : (m.map (List.map fun b => if b then (1 : Int) else 0)).getD i [] = [] := by
      rw [List.getD_eq_getElem?_getD, List.getElem?_eq_none (by simpa using Nat.le_of_not_lt hi)]
      rfl
    have h2 : m.getD i [] = [] := by
      rw [List.getD_eq_getElem?_getD, List.getElem?_eq_none (Nat.le_of_not_lt hi)]
      rfl
    rw [h1, h2]
    simp

theorem bmaskToU8_rowlen (m : BMask) (i : Nat) :
    ((bmaskToU8 m).getD i []).length = (m.getD i []).length :=
  getD_length_eq (bmaskToU8 m) m (by simp [bmaskToU8]) i

/-- The pixels `cv2.boundingRect` sees as nonzero in the `uint8` conversion of
a dropout mask are exactly the spec's true region. -/
theorem filtered_positions_eq (m : BMask)
    (hrect : ∀ i < m.length, (m.getD i []).length = (m.getD 0 []).length) :
    (allPositions (bmaskToU8 m)).filter
        (fun p => decide (gridGet (bmaskToU8 m) p ≠ 0)) =
      truePositions m := by
  unfold allPositions truePositions
  have hH : gridH (bmaskToU8 m) = m.length := by
    simp [gridH, bmaskToU8]
  have hW : gridW (bmaskToU8 m) = (m.getD 0 []).length := by
    have := bmaskToU8_rowlen m 0
    simpa [gridW] using this
  rw [hH, hW]
  have hbase : (List.range m.length).flatMap
        (fun i => (List.range ((m.getD 0 []).length)).map fun j => ((i, j) : Pos)) =
      (List.range m.length).flatMap
        (fun i => (List.range ((m.getD i []).length)).map fun j => ((i, j) : Pos)) := by
    apply flatMap_congr_of_mem
    intro i hi
    rw [hrect i (by simpa using hi)]
  rw [hbase]
  apply List.filter_congr
  intro p _
  rw [gridGet_bmaskToU8]
  by_cases hb : bmaskGet m p <;> simp [hb]

theorem boundingRect_bmaskToU8 (m : BMask)
    (hrect : ∀ i < m.length, (m.getD i []).length = (m.getD 0 []).length)
    (hne : truePositions m ≠ []) :
    (boundingRect (bmaskToU8 m)).2.2.1 = bboxWidth m ∧
    (boundingRect (bmaskToU8 m)).2.2.2 = bboxHeight m := by
  unfold boundingRect bboxWidth bboxHeight
  rw [filtered_positions_eq m hrect]
  obtain ⟨q, qs, hq⟩ := List.exists_cons_of_ne_nil hne
  rw [hq]
  exact ⟨rfl, rfl⟩

/-- C8: with the `"inpaint"` fill spec and a nonempty (rectangular) dropout
mask, the radius `apply` hands to the inpainting algorithm is exactly
`min(3, max(w, h) // 2)`, where `w` and `h` are the width and height of the
axis-aligned bounding box of the dropout mask's true region. -/
theorem claim_C8_inpaint_radius_formula (t : MaskDropoutT) (img : Image)
    (dm : BMask) (hfill : t.image_fill_value = PyVal.str "inpaint")
    (hrect : ∀ i < dm.length, (dm.getD i []).length = (dm.getD 0 []).length)
    (hne : truePositions dm ≠ []) :
    MaskDropout.apply t img (some dm) =
      cv2Inpaint img (bmaskToU8 dm)
        (min 3 (max (bboxWidth dm) (bboxHeight dm) / 2)) := by
  obtain ⟨hw, hh⟩ := boundingRect_bmaskToU8 dm hrect hne
  rw [← hw, ← hh]
  unfold MaskDropout.apply
  rw [hfill]
  rfl

theorem claim_C8_witness :
    MaskDropout.apply
        ⟨false, 1 / 2, PyVal.pair (PyVal.int 1) (PyVal.int 1),
          PyVal.str "inpaint", 0⟩ [[[1, 2, 3]]]
        (some [[true, true, true, true, true, true, true, true, true, true],
               [true, true, true, true, true, true, true, true, true, true]]) =
      cv2Inpaint [[[1, 2, 3]]]
        (bmaskToU8
          [[true, true, true, true, true, true, true, true, true, true],
           [true, true, true, true, true, true, true, true, true, true]])
        (min 3
          (max
            (bboxWidth
              [[true, true, true, true, true, true, true, true, true, true],
               [true, true, true, true, true, true, true, true, true, true]])
            (bboxHeight
              [[true, true, true, true, true, true, true, true, true, true],
               [true, true, true, true, true, true, true, true, true, true]]) / 2)) ∧
    bboxWidth
        [[true, true, true, true, true, true, true, true, true, true],
         [true, true, true, true, true, true, true, true, true, true]] = 10 ∧
    bboxHeight
        [[true, true, true, true, true, true, true, true, true, true],
         [true, true, true, true, true, true, true, true, true, true]] = 2 ∧
    min 3
        (max
          (bboxWidth
            [[true, true, true, true, true, true, true, true, true, true],
             [true, true, true, true, true, true, true, true, true, true]])
          (bboxHeight
            [[true, true, true, true, true, true, true, true, true, true],
             [true, true, true, true, true, true, true, true, true, true]]) / 2) = 3 :=
  ⟨claim_C8_inpaint_radius_formula _ [[[1, 2, 3]]]
      [[true, true, true, true, true, true, true, true, true, true],
       [true, true, true, true, true, true, true, true, true, true]]
      rfl (by decide) (by decide),
    by decide, by decide, by decide⟩
